import Mathlib

/- Formal model of the domain-routing handoff service
   (src/services/handoff_service.py) and the response normalization
   routine parse_agent_response (src/utils/response_utils.py), together
   with theorems settling the specification claims against the code. -/

set_option maxRecDepth 8000

/-- Model of a Python value obtained from json.loads: null, booleans,
numbers, strings, lists and dicts. A number is kept as an exact decimal
scaled integer, the value being mant times ten to the exp10, with a flag
recording whether the source token was an integer literal, since Python
distinguishes int from float. Dicts are association lists with unique
keys, built by last-wins insertion exactly as Python builds a dict from
parsed key-value pairs. -/
inductive JValue where
  | null : JValue
  | bool (b : Bool) : JValue
  | num (isInt : Bool) (mant : Int) (exp10 : Int) : JValue
  | str (s : String) : JValue
  | arr (xs : List JValue) : JValue
  | obj (kvs : List (String × JValue)) : JValue

/-- Insertion into a parsed object, mirroring Python dict construction:
an existing key keeps its position and gets the new value, a new key is
appended at the end. -/
def objInsert (kvs : List (String × JValue)) (k : String) (v : JValue) :
    List (String × JValue) :=
  match kvs with
  | [] => [(k, v)]
  | (k2, v2) :: rest =>
    if k2 = k then (k, v) :: rest else (k2, v2) :: objInsert rest k v

/-- JSON whitespace accepted by the Python json decoder between tokens:
space, tab, newline, carriage return. -/
def jsonWsChar (c : Char) : Bool :=
  c = ' ' || c = '\t' || c = '\n' || c = '\r'

/-- Drop JSON whitespace. -/
def skipJsonWs (cs : List Char) : List Char := cs.dropWhile jsonWsChar

/-- Consume an exact literal character sequence. -/
def dropLit : List Char → List Char → Option (List Char)
  | [], cs => some cs
  | _ :: _, [] => none
  | p :: ps, c :: cs => if c = p then dropLit ps cs else none

/-- Value of a hexadecimal digit, if the character is one. -/
def hexVal (c : Char) : Option Nat :=
  if 48 ≤ c.toNat ∧ c.toNat ≤ 57 then some (c.toNat - 48)
  else if 97 ≤ c.toNat ∧ c.toNat ≤ 102 then some (c.toNat - 87)
  else if 65 ≤ c.toNat ∧ c.toNat ≤ 70 then some (c.toNat - 55)
  else none

/-- Parse exactly four hexadecimal digits. -/
def parseHex4 (cs : List Char) : Option (Nat × List Char) :=
  match cs with
  | a :: b :: c :: d :: rest =>
    match hexVal a, hexVal b, hexVal c, hexVal d with
    | some x, some y, some z, some w => some (((x * 16 + y) * 16 + z) * 16 + w, rest)
    | _, _, _, _ => none
  | _ => none

/-- Build a character from a code point; a lone surrogate code point
(representable in a Python str but not in a Lean Char) is modelled by
the replacement character. -/
def mkChar (n : Nat) : Char :=
  if 0xD800 ≤ n ∧ n ≤ 0xDFFF then Char.ofNat 0xFFFD else Char.ofNat n

/-- Parse the body of a JSON string after the opening quote, following
the strict Python json decoder: the recognized backslash escapes, the
uXXXX escapes with surrogate pair combination, and rejection of raw
control characters below 0x20. Returns the content and the remainder
after the closing quote. -/
def parseStrBody : Nat → List Char → Option (String × List Char)
  | 0, _ => none
  | fuel + 1, cs =>
    match cs with
    | [] => none
    | c :: rest =>
      if c = '"' then some ("", rest)
      else if c = '\\' then
        match rest with
        | [] => none
        | e :: rest2 =>
          if e = '"' then
            (parseStrBody fuel rest2).map (fun p => (String.singleton '"' ++ p.1, p.2))
          else if e = '\\' then
            (parseStrBody fuel rest2).map (fun p => (String.singleton '\\' ++ p.1, p.2))
          else if e = '/' then
            (parseStrBody fuel rest2).map (fun p => (String.singleton '/' ++ p.1, p.2))
          else if e = 'b' then
            (parseStrBody fuel rest2).map (fun p => (String.singleton (Char.ofNat 8) ++ p.1, p.2))
          else if e = 'f' then
            (parseStrBody fuel rest2).map (fun p => (String.singleton (Char.ofNat 12) ++ p.1, p.2))
          else if e = 'n' then
            (parseStrBody fuel rest2).map (fun p => (String.singleton '\n' ++ p.1, p.2))
          else if e = 'r' then
            (parseStrBody fuel rest2).map (fun p => (String.singleton '\r' ++ p.1, p.2))
          else if e = 't' then
            (parseStrBody fuel rest2).map (fun p => (String.singleton '\t' ++ p.1, p.2))
          else if e = 'u' then
            match parseHex4 rest2 with
            | none => none
            | some (n, rest3) =>
              if 0xD800 ≤ n ∧ n ≤ 0xDBFF then
                match rest3 with
                | b1 :: b2 :: rest4 =>
                  if b1 = '\\' ∧ b2 = 'u' then
                    match parseHex4 rest4 with
                    | some (n2, rest5) =>
                      if 0xDC00 ≤ n2 ∧ n2 ≤ 0xDFFF then
                        (parseStrBody fuel rest5).map (fun p =>
                          (String.singleton (Char.ofNat (0x10000 + (n - 0xD800) * 0x400 + (n2 - 0xDC00))) ++ p.1, p.2))
                      else
                        (parseStrBody fuel rest3).map (fun p => (String.singleton (mkChar n) ++ p.1, p.2))
                    | none =>
                      (parseStrBody fuel rest3).map (fun p => (String.singleton (mkChar n) ++ p.1, p.2))
                  else
                    (parseStrBody fuel rest3).map (fun p => (String.singleton (mkChar n) ++ p.1, p.2))
                | _ =>
                  (parseStrBody fuel rest3).map (fun p => (String.singleton (mkChar n) ++ p.1, p.2))
              else
                (parseStrBody fuel rest3).map (fun p => (String.singleton (mkChar n) ++ p.1, p.2))
          else none
      else if c.toNat < 32 then none
      else (parseStrBody fuel rest).map (fun p => (String.singleton c ++ p.1, p.2))

/-- Numeric value of a digit sequence. -/
def digitsToNat (ds : List Char) : Nat :=
  ds.foldl (fun acc c => acc * 10 + (c.toNat - 48)) 0

/-- Finish parsing a number: optional exponent part, producing the
exact decimal value and the integer flag, as the Python json number
grammar does (a number with a fraction or an exponent becomes a float). -/
def parseExpPart (neg : Bool) (iv : Nat) (fracDs : List Char) (cs : List Char) :
    Option (JValue × List Char) :=
  let mantNat : Nat := iv * 10 ^ fracDs.length + digitsToNat fracDs
  let mant : Int := if neg then -(mantNat : Int) else (mantNat : Int)
  let baseExp : Int := -(fracDs.length : Int)
  match cs with
  | e :: r =>
    if e = 'e' ∨ e = 'E' then
      let (epos, r2) :=
        match r with
        | '+' :: rr => (true, rr)
        | '-' :: rr => (false, rr)
        | _ => (true, r)
      let eds := r2.takeWhile Char.isDigit
      if eds.isEmpty then none
      else
        let ev : Int := if epos then (digitsToNat eds : Int) else -(digitsToNat eds : Int)
        some (.num false mant (baseExp + ev), r2.dropWhile Char.isDigit)
    else some (.num fracDs.isEmpty mant baseExp, e :: r)
  | [] => some (.num fracDs.isEmpty mant baseExp, [])

/-- Parse a JSON number token following the json grammar: optional
minus sign, an integer part without leading zeros, an optional fraction
and an optional exponent. -/
def parseNum (cs : List Char) : Option (JValue × List Char) :=
  let (neg, cs1) :=
    match cs with
    | '-' :: r => (true, r)
    | _ => (false, cs)
  match cs1 with
  | [] => none
  | c :: _ =>
    if c.isDigit then
      let intDigits := cs1.takeWhile Char.isDigit
      let rest1 := cs1.dropWhile Char.isDigit
      if 1 < intDigits.length ∧ intDigits.headD '0' = '0' then none
      else
        let iv := digitsToNat intDigits
        match rest1 with
        | '.' :: r =>
          let ds := r.takeWhile Char.isDigit
          if ds.isEmpty then none
          else parseExpPart neg iv ds (r.dropWhile Char.isDigit)
        | _ => parseExpPart neg iv [] rest1
    else none

/-- Parsing mode of the single fuel-indexed JSON parsing function: a
value, the items of an array after the opening bracket, or the members
of an object after the opening brace. -/
inductive PMode where
  | val : PMode
  | arrItems (acc : List JValue) : PMode
  | objItems (acc : List (String × JValue)) : PMode

/-- Fuel-indexed JSON parser modelling the strict Python json decoder.
The fuel only bounds recursion depth; callers supply fuel proportional
to the input length, which is always sufficient. -/
def parseF : Nat → PMode → List Char → Option (JValue × List Char)
  | 0, _, _ => none
  | fuel + 1, .val, cs =>
    (match skipJsonWs cs with
     | [] => none
     | c :: rest =>
       if c = '"' then (parseStrBody fuel rest).map (fun p => (.str p.1, p.2))
       else if c = '\x7b' then
         match skipJsonWs rest with
         | '\x7d' :: rest2 => some (.obj [], rest2)
         | _ => parseF fuel (.objItems []) rest
       else if c = '[' then
         match skipJsonWs rest with
         | ']' :: rest2 => some (.arr [], rest2)
         | _ => parseF fuel (.arrItems []) rest
       else if c = 't' then (dropLit ['r', 'u', 'e'] rest).map (fun r => (.bool true, r))
       else if c = 'f' then (dropLit ['a', 'l', 's', 'e'] rest).map (fun r => (.bool false, r))
       else if c = 'n' then (dropLit ['u', 'l', 'l'] rest).map (fun r => (.null, r))
       else if c = '-' ∨ c.isDigit then parseNum (c :: rest)
       else none)
  | fuel + 1, .arrItems acc, cs =>
    (match parseF fuel .val cs with
     | none => none
     | some (v, rest) =>
       match skipJsonWs rest with
       | ',' :: rest2 => parseF fuel (.arrItems (acc ++ [v])) rest2
       | ']' :: rest2 => some (.arr (acc ++ [v]), rest2)
       | _ => none)
  | fuel + 1, .objItems acc, cs =>
    (match skipJsonWs cs with
     | '"' :: rest =>
       match parseStrBody fuel rest with
       | none => none
       | some (k, rest2) =>
         match skipJsonWs rest2 with
         | ':' :: rest3 =>
           match parseF fuel .val rest3 with
           | none => none
           | some (v, rest4) =>
             match skipJsonWs rest4 with
             | ',' :: rest5 => parseF fuel (.objItems (objInsert acc k v)) rest5
             | '\x7d' :: rest5 => some (.obj (objInsert acc k v), rest5)
             | _ => none
         | _ => none
     | _ => none)

/-- Model of json.loads on a string: parse one value surrounded by
optional whitespace, failing on trailing data. The model omits the
nonstandard NaN and Infinity constants that the Python decoder accepts. -/
def loads (s : String) : Option JValue :=
  match parseF (4 * s.data.length + 16) .val s.data with
  | some (v, rest) => if (skipJsonWs rest).isEmpty then some v else none
  | none => none

/-- Python truthiness of a parsed JSON value: None, False, zero, the
empty string, the empty list and the empty dict are falsy. -/
def pyTruthy : JValue → Bool
  | .null => false
  | .bool b => b
  | .num _ mant _ => decide (mant ≠ 0)
  | .str s => !s.isEmpty
  | .arr xs => !xs.isEmpty
  | .obj kvs => !kvs.isEmpty

/-- Whether the value is a Python str. -/
def isStrJ : JValue → Bool
  | .str _ => true
  | _ => false

/-- Whether the value is a Python dict. -/
def isObjJ : JValue → Bool
  | .obj _ => true
  | _ => false

/-- Join strings with a comma separator as json.dumps does between
container items. -/
def joinComma (l : List String) : String := String.intercalate ", " l

/-- Lowercase hexadecimal digit. -/
def hexDigit (n : Nat) : Char :=
  if n < 10 then Char.ofNat (48 + n) else Char.ofNat (87 + n)

/-- Four-digit lowercase hexadecimal rendering. -/
def hex4 (n : Nat) : String :=
  String.mk [hexDigit (n / 4096 % 16), hexDigit (n / 256 % 16), hexDigit (n / 16 % 16), hexDigit (n % 16)]

/-- Escape one character as json.dumps with ensure_ascii does: printable
ASCII except quote and backslash is kept, the short escapes are used for
the usual control characters, everything else becomes a uXXXX escape,
with surrogate pairs above the basic plane. -/
def jsonQuoteChar (c : Char) : String :=
  if c = '"' then "\\\""
  else if c = '\\' then "\\\\"
  else if c = '\n' then "\\n"
  else if c = '\r' then "\\r"
  else if c = '\t' then "\\t"
  else if c.toNat = 8 then "\\b"
  else if c.toNat = 12 then "\\f"
  else if 32 ≤ c.toNat ∧ c.toNat ≤ 126 then String.singleton c
  else if c.toNat ≤ 0xFFFF then "\\u" ++ hex4 c.toNat
  else
    let n := c.toNat - 0x10000
    "\\u" ++ hex4 (0xD800 + n / 0x400) ++ "\\u" ++ hex4 (0xDC00 + n % 0x400)

/-- Quote a string as a json.dumps string literal. -/
def jsonQuote (s : String) : String :=
  "\"" ++ String.join (s.data.map jsonQuoteChar) ++ "\""

/-- Decimal fraction digits of a remainder over a denominator, used for
rendering float values; the fuel bounds the number of digits. -/
def fracDigitsStr : Nat → Nat → Nat → String
  | 0, _, _ => ""
  | fuel + 1, r, d =>
    if r = 0 then ""
    else
      let r10 := r * 10
      String.singleton (Char.ofNat (48 + r10 / d)) ++ fracDigitsStr fuel (r10 % d) d

/-- Rendering of a float value held as mant times ten to the exp10,
matching the Python str of a float on the plain decimal values that
occur in practice (Python switches to scientific notation for extreme
magnitudes, which this model does not reproduce). -/
def floatStr (mant : Int) (exp10 : Int) : String :=
  let sign := if mant < 0 then "-" else ""
  let m := mant.natAbs
  match exp10 with
  | .ofNat k =>
    sign ++ toString (m * 10 ^ k) ++ ".0"
  | .negSucc k0 =>
    let k := k0 + 1
    let d := 10 ^ k
    let ip := m / d
    let r := m % d
    let fr := fracDigitsStr (k + 1) r d
    sign ++ toString ip ++ "." ++ (if fr = "" then "0" else fr)

mutual

/-- Model of json.dumps with its default separators and ensure_ascii. -/
def dumpsJ : JValue → String
  | .null => "null"
  | .bool true => "true"
  | .bool false => "false"
  | .num true mant _ => toString mant
  | .num false mant e => floatStr mant e
  | .str s => jsonQuote s
  | .arr xs => "[" ++ joinComma (dumpsList xs) ++ "]"
  | .obj kvs => "\x7b" ++ joinComma (dumpsPairs kvs) ++ "\x7d"

/-- Serialization of the items of a list. -/
def dumpsList : List JValue → List String
  | [] => []
  | x :: xs => dumpsJ x :: dumpsList xs

/-- Serialization of the members of a dict. -/
def dumpsPairs : List (String × JValue) → List String
  | [] => []
  | (k, v) :: kvs => (jsonQuote k ++ ": " ++ dumpsJ v) :: dumpsPairs kvs

end

/-- Python repr of a string: quoted with single quotes, or with double
quotes when the text contains a single quote and no double quote, with
backslash and control escapes. Printable characters are kept. -/
def pyReprStr (s : String) : String :=
  let useDouble := s.data.contains '\'' ∧ ¬ s.data.contains '"'
  let q : Char := if useDouble then '"' else '\''
  let esc : Char → String := fun c =>
    if c = '\\' then "\\\\"
    else if c = q then "\\" ++ String.singleton q
    else if c = '\n' then "\\n"
    else if c = '\r' then "\\r"
    else if c = '\t' then "\\t"
    else if c.toNat < 32 then "\\x" ++ String.mk [hexDigit (c.toNat / 16), hexDigit (c.toNat % 16)]
    else String.singleton c
  String.singleton q ++ String.join (s.data.map esc) ++ String.singleton q

mutual

/-- Python repr of a parsed JSON value: None, True, False, decimal
integers, floats, single-quoted strings, and bracketed containers with
comma-space separators. -/
def pyRepr : JValue → String
  | .null => "None"
  | .bool true => "True"
  | .bool false => "False"
  | .num true mant _ => toString mant
  | .num false mant e => floatStr mant e
  | .str s => pyReprStr s
  | .arr xs => "[" ++ joinComma (pyReprList xs) ++ "]"
  | .obj kvs => "\x7b" ++ joinComma (pyReprPairs kvs) ++ "\x7d"

/-- Repr of the items of a list. -/
def pyReprList : List JValue → List String
  | [] => []
  | x :: xs => pyRepr x :: pyReprList xs

/-- Repr of the members of a dict. -/
def pyReprPairs : List (String × JValue) → List String
  | [] => []
  | (k, v) :: kvs => (pyReprStr k ++ ": " ++ pyRepr v) :: pyReprPairs kvs

end

/-- Python str of a parsed JSON value: the text itself for a str, the
repr rendering otherwise. -/
def pyStr : JValue → String
  | .str s => s
  | v => pyRepr v

/-- Whitespace class of a Python regex backslash-s and of str.strip, in
its ASCII part: space, tab, newline, carriage return, vertical tab and
form feed. -/
def pyRegexSpace (c : Char) : Bool :=
  c = ' ' || c = '\t' || c = '\n' || c = '\r' || c.toNat = 11 || c.toNat = 12

/-- An opening JSON bracket character, the leading character class of
both extraction regexes in parse_agent_response. -/
def pyOpener (c : Char) : Bool := c = '[' || c = '\x7b'

/-- A closing JSON bracket character, the trailing character class of
both extraction regexes in parse_agent_response. -/
def pyCloser (c : Char) : Bool := c = ']' || c = '\x7d'

/-- The backtick character of the code fence delimiters. -/
def tickChar : Char := Char.ofNat 96

/-- Python str.strip with no arguments on a character list. -/
def pyStripChars (cs : List Char) : List Char :=
  ((cs.dropWhile pyRegexSpace).reverse.dropWhile pyRegexSpace).reverse

/-- Model of the fallback extraction regex of parse_agent_response, an
opener followed greedily by anything up to a closer, searched with
re.DOTALL: the match runs from the first opener that has some closer
after it up to the last closer of the whole string. -/
def spanSearch (cs : List Char) : Option (List Char) :=
  let n := cs.length
  match (((List.range n).filter (fun j => pyCloser (cs.getD j ' '))).getLast?) with
  | none => none
  | some j =>
    match (List.range n).find? (fun i => decide (i < j) && pyOpener (cs.getD i ' ')) with
    | none => none
    | some i => some ((cs.drop i).take (j - i + 1))

/-- Whether the remainder closes a code fence: optional whitespace and
then three backticks, the tail of the code block regex. -/
def closesFence (cs : List Char) : Bool :=
  (dropLit [tickChar, tickChar, tickChar] (cs.dropWhile pyRegexSpace)).isSome

/-- Attempt to match the code block regex of parse_agent_response at
the current position: three backticks, an optional json tag, optional
whitespace, then the captured group running from an opener greedily to
the last closer that is followed by optional whitespace and a closing
fence. Returns the captured group. -/
def tryFenceAt (cs : List Char) : Option (List Char) :=
  match dropLit [tickChar, tickChar, tickChar] cs with
  | none => none
  | some r1 =>
    let r2 :=
      match dropLit ['j', 's', 'o', 'n'] r1 with
      | some r => r
      | none => r1
    match r2.dropWhile pyRegexSpace with
    | [] => none
    | c :: rest =>
      if pyOpener c then
        let ok := fun (j : Nat) =>
          pyCloser (rest.getD j ' ') && closesFence (rest.drop (j + 1))
        match ((List.range rest.length).filter ok).getLast? with
        | some j => some (c :: rest.take (j + 1))
        | none => none
      else none

/-- re.search of the code block regex: try the match at each start
position from the left and return the first captured group. -/
def fenceSearch : List Char → Option (List Char)
  | [] => none
  | c :: cs =>
    match tryFenceAt (c :: cs) with
    | some g => some g
    | none => fenceSearch cs

/-- The candidate text that parse_agent_response hands to json.loads:
the stripped code block group when the code block regex matches, else
the stripped bracket-delimited span when the fallback regex matches,
else the original response unchanged. -/
def extractCandidate (response : String) : String :=
  match fenceSearch response.data with
  | some g => String.mk (pyStripChars g)
  | none =>
    match spanSearch response.data with
    | some g => String.mk (pyStripChars g)
    | none => response

/-- Python dict get with a default on a parsed object. -/
def objGetD (kvs : List (String × JValue)) (k : String) (d : JValue) : JValue :=
  (List.lookup k kvs).getD d

/-- Python membership test on a parsed object. -/
def objHasKey (kvs : List (String × JValue)) (k : String) : Bool :=
  (List.lookup k kvs).isSome

/-- The record built by parse_agent_response when the parsed value is a
non-empty list whose first item is a dict: fields are taken from that
first item, a truthy non-string products value is re-serialized with
json.dumps, and a truthy discount value is stringified. -/
def listDictRecord (kvs : List (String × JValue)) : List (String × JValue) :=
  let answer := objGetD kvs "answer" (.str "")
  let products0 := objGetD kvs "products" (.str "")
  let image_output := objGetD kvs "image_output" (.str "")
  let discount_percentage := objGetD kvs "discount_percentage" (.str "")
  let cart := objGetD kvs "cart" (.arr [])
  let products :=
    if pyTruthy products0 && !isStrJ products0 then JValue.str (dumpsJ products0)
    else products0
  [("answer", answer),
   ("agent", .str ""),
   ("products", products),
   ("discount_percentage", if pyTruthy discount_percentage then .str (pyStr discount_percentage) else .str ""),
   ("image_url", image_output),
   ("additional_data", .str ""),
   ("cart", cart)]

/-- The record built by parse_agent_response when the parsed value is a
non-empty list whose first item is not a dict: the whole parsed value is
stringified into the answer and, unlike every other branch, the built
dict has no cart key. -/
def listOtherRecord (parsed : JValue) : List (String × JValue) :=
  [("answer", .str (pyStr parsed)),
   ("agent", .str ""),
   ("products", .str ""),
   ("discount_percentage", .str ""),
   ("image_url", .str ""),
   ("additional_data", .str "")]

/-- Python startswith with the single opening square bracket. -/
def startsWithLB (a : String) : Bool :=
  match a.data with
  | c :: _ => c = '['
  | [] => false

/-- Python endswith with the single closing square bracket. -/
def endsWithRB (a : String) : Bool :=
  match a.data.getLast? with
  | some c => c = ']'
  | none => false

/-- The answer value computed in the dict branch of
parse_agent_response: a string answer that looks like a JSON array is
parsed again, and if that nested list starts with a dict containing an
answer key, the inner answer value replaces it. -/
def dictBranchAnswer (answer0 : JValue) : JValue :=
  match answer0 with
  | .str a =>
    if startsWithLB a && endsWithRB a then
      match loads a with
      | some (.arr (first :: _)) =>
        match first with
        | .obj kvs2 =>
          if objHasKey kvs2 "answer" then objGetD kvs2 "answer" .null else .str a
        | _ => .str a
      | some _ => .str a
      | none => .str a
    else .str a
  | v => v

/-- The record built by parse_agent_response when the parsed value is a
dict: fields are copied with defaults, the nested answer case is
unwrapped one level, and a truthy discount value is stringified. -/
def dictRecord (kvs : List (String × JValue)) : List (String × JValue) :=
  [("answer", dictBranchAnswer (objGetD kvs "answer" (.str ""))),
   ("agent", objGetD kvs "agent" (.str "")),
   ("products", objGetD kvs "products" (.str "")),
   ("discount_percentage",
     if pyTruthy (objGetD kvs "discount_percentage" .null)
     then .str (pyStr (objGetD kvs "discount_percentage" (.str ""))) else .str ""),
   ("image_url", objGetD kvs "image_url" (.str "")),
   ("additional_data", objGetD kvs "additional_data" (.str "")),
   ("cart", objGetD kvs "cart" (.arr []))]

/-- The record built by parse_agent_response when the parsed value is a
scalar or an empty list: the stringified value becomes the answer. -/
def scalarRecord (parsed : JValue) : List (String × JValue) :=
  [("answer", .str (pyStr parsed)),
   ("agent", .str ""),
   ("products", .str ""),
   ("discount_percentage", .str ""),
   ("image_url", .str ""),
   ("additional_data", .str ""),
   ("cart", .arr [])]

/-- The record built by parse_agent_response when json.loads fails: the
candidate text that was handed to the parser becomes the answer. -/
def failRecord (resp : String) : List (String × JValue) :=
  [("answer", .str resp),
   ("agent", .str ""),
   ("products", .str ""),
   ("discount_percentage", .str ""),
   ("image_url", .str ""),
   ("additional_data", .str ""),
   ("cart", .arr [])]

/-- Model of parse_agent_response from src/utils/response_utils.py: the
response dict is modelled as the association list of its keys in
construction order. -/
def parse_agent_response (response : String) : List (String × JValue) :=
  let extracted := extractCandidate response
  match loads extracted with
  | some parsed =>
    match parsed with
    | .arr (first :: rest) =>
      match first with
      | .obj kvs => listDictRecord kvs
      | _ => listOtherRecord (.arr (first :: rest))
    | .obj kvs => dictRecord kvs
    | other => scalarRecord other
  | none => failRecord extracted

/-- The text of the answer field of a built record, empty when the
field is missing or not a string. -/
def answerText (r : List (String × JValue)) : String :=
  match List.lookup "answer" r with
  | some (.str s) => s
  | _ => ""

/-- Whether the parsed candidate is a non-empty list whose first item
is not a dict, the one branch of parse_agent_response that builds a
record without a cart key. -/
def nonMappingListHead : Option JValue → Bool
  | some (.arr (f :: _)) => !isObjJ f
  | _ => false

/-- The name and description record of one agent domain. -/
structure AgentInfo where
  name : String
  description : String

/-- Model of the AGENT_DOMAINS dict of handoff_service.py, in source
order. -/
def AGENT_DOMAINS : List (String × AgentInfo) :=
  [("cora",
    { name := "Cora Shopping Assistant",
      description := "General shopping assistance, product browsing" }),
   ("interior_designer",
    { name := "Interior Design Specialist",
      description := "Room design, color schemes, furniture recommendations, image creation" }),
   ("inventory_agent",
    { name := "Inventory Specialist",
      description := "Product availability, stock levels, inventory checks" }),
   ("customer_loyalty",
    { name := "Customer Loyalty Specialist",
      description := "Discounts, promotions, loyalty programs, customer benefits" }),
   ("cart_manager",
    { name := "Cart Manager Specialist",
      description := "Shopping cart operations, adding/removing items, cart viewing, checkout assistance" })]

/-- Dict lookup in AGENT_DOMAINS. -/
def lookupAD (d : String) : Option AgentInfo := List.lookup d AGENT_DOMAINS

/-- The structured output of the intent classifier, as the pydantic
IntentClassification model: the confidence is an exact decimal held as
mant times ten to the minus scale, so that the literal 0.3 of the code
is three tenths. -/
structure IntentClassification where
  domain : String
  is_domain_change : Bool
  confMant : Int
  confScale : Nat
  reasoning : String

/-- The dictionary returned by classify_intent, with the confidence in
the same exact decimal form. -/
structure ClassifyResult where
  domain : String
  is_domain_change : Bool
  confMant : Int
  confScale : Nat
  reasoning : String
  agent_id : String
  agent_name : String

/-- State of a HandoffService instance: the configured default domain,
the stored lazy classification flag, and the per-session domain dict
modelled as an association list with unique keys. The external client
and deployment name are not part of the model; the classifier call they
serve is an explicit outcome argument of classify_intent. -/
structure HandoffService where
  default_domain : String
  lazy_classification : Bool
  session_domains : List (String × String)

/-- A freshly constructed service with an empty session dict. -/
def initService (default_domain : String) : HandoffService :=
  { default_domain := default_domain, lazy_classification := true, session_domains := [] }

/-- Python dict item assignment: an existing key keeps its position and
gets the new value, a new key is appended. -/
def dictSet : List (String × String) → String → String → List (String × String)
  | [], k, v => [(k, v)]
  | (k2, v2) :: rest, k, v =>
    if k2 = k then (k, v) :: rest else (k2, v2) :: dictSet rest k v

/-- Python dict item deletion of an existing key; deleting a missing
key leaves the dict unchanged, matching the guarded del of
reset_session. -/
def dictDel : List (String × String) → String → List (String × String)
  | [], _ => []
  | (k2, v2) :: rest, k =>
    if k2 = k then rest else (k2, v2) :: dictDel rest k

/-- Python dict get with a None default on the session dict. -/
def dictGet (m : List (String × String)) (k : String) : Option String :=
  List.lookup k m

/-- The first-message branch of classify_intent: the default domain is
recorded for the session and returned with full confidence; looking up
the default domain name in AGENT_DOMAINS with square brackets raises a
KeyError when the configured default is not a known domain, after the
session dict was already updated. -/
def firstMessageStep (svc : HandoffService) (session_id : String) :
    Except String ClassifyResult × HandoffService :=
  let svc2 : HandoffService :=
    { svc with session_domains := dictSet svc.session_domains session_id svc.default_domain }
  match lookupAD svc.default_domain with
  | some info =>
    (Except.ok
      { domain := svc.default_domain,
        is_domain_change := true,
        confMant := 1, confScale := 0,
        reasoning := "First message, routing to " ++ svc.default_domain,
        agent_id := svc.default_domain,
        agent_name := info.name }, svc2)
  | none => (Except.error "KeyError", svc2)

/-- Model of HandoffService.classify_intent. The external classifier
call is passed in as its outcome: a structured result when the call
parses, or an exception message when it raises. The session dict is
returned alongside the result, also on the raising path. A session
domain that is None or the empty string is falsy in Python and takes
the first-message branch; otherwise the classifier outcome is consumed,
a reported domain change updates the session dict, and a raised
exception is swallowed into a fixed 0.3 confidence fallback on the
current domain. -/
def classify_intent (svc : HandoffService) (user_message session_id : String)
    (chat_history : Option String) (outcome : Except String IntentClassification) :
    Except String ClassifyResult × HandoffService :=
  match dictGet svc.session_domains session_id with
  | none => firstMessageStep svc session_id
  | some d =>
    if d = "" then firstMessageStep svc session_id
    else
      match outcome with
      | .ok intent =>
        let result : ClassifyResult :=
          { domain := intent.domain,
            is_domain_change := intent.is_domain_change,
            confMant := intent.confMant, confScale := intent.confScale,
            reasoning := intent.reasoning,
            agent_id := intent.domain,
            agent_name := ((lookupAD intent.domain).map AgentInfo.name).getD "Unknown Agent" }
        let svc2 :=
          if intent.is_domain_change then
            { svc with session_domains := dictSet svc.session_domains session_id intent.domain }
          else svc
        (Except.ok result, svc2)
      | .error _ =>
        let fallback := if d = "" then svc.default_domain else d
        (Except.ok
          { domain := fallback,
            is_domain_change := false,
            confMant := 3, confScale := 1,
            reasoning := "Classification error, using " ++ fallback,
            agent_id := fallback,
            agent_name := ((lookupAD fallback).map AgentInfo.name).getD "Unknown Agent" }, svc)

/-- Model of HandoffService.get_current_domain. -/
def get_current_domain (svc : HandoffService) (session_id : String) : Option String :=
  dictGet svc.session_domains session_id

/-- Model of HandoffService.set_domain: an unknown domain name is
replaced by the configured default before being recorded. -/
def set_domain (svc : HandoffService) (session_id domain : String) : HandoffService :=
  let d := if (lookupAD domain).isNone then svc.default_domain else domain
  { svc with session_domains := dictSet svc.session_domains session_id d }

/-- Model of HandoffService.reset_session. -/
def reset_session (svc : HandoffService) (session_id : String) : HandoffService :=
  { svc with session_domains := dictDel svc.session_domains session_id }

/-- The session dict invariant of the spec data model: every stored
domain is a key of AGENT_DOMAINS. -/
def sessionsValid (svc : HandoffService) : Bool :=
  svc.session_domains.all (fun p => (lookupAD p.2).isSome)

theorem lookup_dictSet_self (m : List (String × String)) (k v : String) :
    List.lookup k (dictSet m k v) = some v := by
  induction m with
  | nil => simp [dictSet, List.lookup]
  | cons p rest ih =>
    obtain ⟨k2, v2⟩ := p
    by_cases hk : k2 = k
    · simp [dictSet, hk, List.lookup]
    · have hbeq : (k == k2) = false := beq_eq_false_iff_ne.mpr (Ne.symm hk)
      simp [dictSet, hk, List.lookup, hbeq, ih]

theorem lookup_dictSet_ne (m : List (String × String)) (k v k2 : String) (h : k2 ≠ k) :
    List.lookup k2 (dictSet m k v) = List.lookup k2 m := by
  have hbeq : (k2 == k) = false := beq_eq_false_iff_ne.mpr h
  induction m with
  | nil => simp [dictSet, List.lookup, hbeq]
  | cons p rest ih =>
    obtain ⟨k3, v3⟩ := p
    by_cases hk : k3 = k
    · subst hk
      simp [dictSet, List.lookup, hbeq]
    · by_cases hk2 : k2 = k3
      · subst hk2
        simp [dictSet, hk, List.lookup]
      · have hbeq2 : (k2 == k3) = false := beq_eq_false_iff_ne.mpr hk2
        simp [dictSet, hk, List.lookup, hbeq2, ih]

theorem all_dictSet (m : List (String × String)) (k v : String)
    (f : String × String → Bool) (hm : m.all f = true) (hv : f (k, v) = true) :
    (dictSet m k v).all f = true := by
  induction m with
  | nil => simp [dictSet, hv]
  | cons p rest ih =>
    obtain ⟨k2, v2⟩ := p
    simp only [List.all_cons, Bool.and_eq_true] at hm
    by_cases hk : k2 = k
    · simp [dictSet, hk, hv, hm.2]
    · simp [dictSet, hk, hm.1, ih hm.2]

theorem all_dictDel (m : List (String × String)) (k : String)
    (f : String × String → Bool) (hm : m.all f = true) :
    (dictDel m k).all f = true := by
  induction m with
  | nil => simp [dictDel]
  | cons p rest ih =>
    obtain ⟨k2, v2⟩ := p
    simp only [List.all_cons, Bool.and_eq_true] at hm
    by_cases hk : k2 = k
    · simp [dictDel, hk, hm.2]
    · simp [dictDel, hk, hm.1, ih hm.2]

theorem firstMessageStep_snd (svc : HandoffService) (sid : String) :
    (firstMessageStep svc sid).2 =
      { svc with session_domains := dictSet svc.session_domains sid svc.default_domain } := by
  unfold firstMessageStep
  cases lookupAD svc.default_domain <;> rfl

/-- C1: for every session id with no recorded domain in the session
dict, classify_intent returns a result carrying the configured default
domain, marked as a domain change with confidence 1.0, and records the
default domain for that session; the default domain is assumed to be a
known domain, as the first-message branch indexes AGENT_DOMAINS with
it. -/
theorem c1_first_message_default (svc : HandoffService) (msg sid : String)
    (hist : Option String) (outcome : Except String IntentClassification) (info : AgentInfo)
    (h : dictGet svc.session_domains sid = none)
    (hd : lookupAD svc.default_domain = some info) :
    (classify_intent svc msg sid hist outcome).1 =
      Except.ok { domain := svc.default_domain, is_domain_change := true,
                  confMant := 1, confScale := 0,
                  reasoning := "First message, routing to " ++ svc.default_domain,
                  agent_id := svc.default_domain, agent_name := info.name } ∧
    dictGet (classify_intent svc msg sid hist outcome).2.session_domains sid =
      some svc.default_domain := by
  have h1 : classify_intent svc msg sid hist outcome = firstMessageStep svc sid := by
    unfold classify_intent
    rw [h]
  rw [h1]
  constructor
  · unfold firstMessageStep
    rw [hd]
  · rw [firstMessageStep_snd]
    exact lookup_dictSet_self _ _ _

/-- Witness for C1 at a concrete fresh service. -/
theorem c1_first_message_default_witness :
    (classify_intent (initService "cora") "hello" "s1" none (Except.error "boom")).1 =
      Except.ok { domain := "cora", is_domain_change := true,
                  confMant := 1, confScale := 0,
                  reasoning := "First message, routing to cora",
                  agent_id := "cora", agent_name := "Cora Shopping Assistant" } ∧
    dictGet (classify_intent (initService "cora") "hello" "s1" none
        (Except.error "boom")).2.session_domains "s1" = some "cora" :=
  c1_first_message_default (initService "cora") "hello" "s1" none (Except.error "boom")
    { name := "Cora Shopping Assistant",
      description := "General shopping assistance, product browsing" } rfl rfl

/-- C2: for every session with a recorded non-empty domain, when the
classifier call raises, classify_intent swallows the exception and
returns the prior session domain with confidence exactly 0.3 and no
domain change, leaving the session dict unchanged. -/
theorem c2_classifier_error_fallback (svc : HandoffService) (msg sid : String)
    (hist : Option String) (e d : String)
    (h : dictGet svc.session_domains sid = some d) (hne : d ≠ "") :
    (classify_intent svc msg sid hist (Except.error e)).1 =
      Except.ok { domain := d, is_domain_change := false,
                  confMant := 3, confScale := 1,
                  reasoning := "Classification error, using " ++ d,
                  agent_id := d,
                  agent_name := ((lookupAD d).map AgentInfo.name).getD "Unknown Agent" } ∧
    (classify_intent svc msg sid hist (Except.error e)).2 = svc := by
  unfold classify_intent
  simp only [h]
  simp only [if_neg hne]
  exact ⟨trivial, trivial⟩

/-- Witness for C2 at a concrete service with a recorded domain. -/
theorem c2_classifier_error_fallback_witness :
    (classify_intent (set_domain (initService "cora") "s1" "interior_designer")
        "msg" "s1" none (Except.error "api down")).1 =
      Except.ok { domain := "interior_designer", is_domain_change := false,
                  confMant := 3, confScale := 1,
                  reasoning := "Classification error, using interior_designer",
                  agent_id := "interior_designer",
                  agent_name := "Interior Design Specialist" } ∧
    (classify_intent (set_domain (initService "cora") "s1" "interior_designer")
        "msg" "s1" none (Except.error "api down")).2 =
      set_domain (initService "cora") "s1" "interior_designer" :=
  c2_classifier_error_fallback (set_domain (initService "cora") "s1" "interior_designer")
    "msg" "s1" none "api down" "interior_designer" rfl (by decide)

/-- C9: set_domain records the requested domain when it is a key of
AGENT_DOMAINS, and records the configured default domain instead when
it is not, as get_current_domain then reports. -/
theorem c9_set_domain_unknown_fallback (svc : HandoffService) (sid dom : String) :
    ((lookupAD dom).isNone = true →
      get_current_domain (set_domain svc sid dom) sid = some svc.default_domain) ∧
    ((lookupAD dom).isNone = false →
      get_current_domain (set_domain svc sid dom) sid = some dom) := by
  constructor
  · intro h2
    unfold get_current_domain set_domain
    simp only [h2, if_true]
    exact lookup_dictSet_self _ _ _
  · intro h2
    unfold get_current_domain set_domain
    simp only [h2, if_false, Bool.false_eq_true]
    exact lookup_dictSet_self _ _ _

/-- Witness for C9: an unknown name falls back to the default, a known
name is recorded as given. -/
theorem c9_set_domain_unknown_fallback_witness :
    get_current_domain (set_domain (initService "cora") "s1" "warehouse") "s1" = some "cora" ∧
    get_current_domain (set_domain (initService "cora") "s1" "cart_manager") "s1" =
      some "cart_manager" :=
  ⟨(c9_set_domain_unknown_fallback (initService "cora") "s1" "warehouse").1 rfl,
   (c9_set_domain_unknown_fallback (initService "cora") "s1" "cart_manager").2 rfl⟩

/-- C3 counterexample: when the classifier reports a domain change to a
name outside AGENT_DOMAINS, the classifier-success branch of
classify_intent stores that unknown name in the session dict, so the
claimed invariant fails for arbitrary classifier output. -/
theorem c3_success_branch_stores_unknown_domain :
    dictGet (classify_intent (set_domain (initService "cora") "s1" "cora") "msg" "s1" none
        (Except.ok { domain := "warehouse", is_domain_change := true,
                     confMant := 9, confScale := 1,
                     reasoning := "r" })).2.session_domains "s1" = some "warehouse" ∧
    (lookupAD "warehouse").isNone = true := ⟨rfl, rfl⟩

/-- C3 amended: with a known configured default domain, the session
dict invariant that every stored value is a key of AGENT_DOMAINS is
preserved by set_domain, reset_session, the first-message branch and
the error branch of classify_intent, and by the classifier-success
branch provided the classifier reports a known domain. -/
theorem c3_sessions_valid_amended (svc : HandoffService) (msg sid : String)
    (hist : Option String)
    (hm : sessionsValid svc = true) (hdef : (lookupAD svc.default_domain).isSome = true) :
    (∀ dom, sessionsValid (set_domain svc sid dom) = true) ∧
    sessionsValid (reset_session svc sid) = true ∧
    (∀ e, sessionsValid (classify_intent svc msg sid hist (Except.error e)).2 = true) ∧
    (∀ intent, (lookupAD intent.domain).isSome = true →
      sessionsValid (classify_intent svc msg sid hist (Except.ok intent)).2 = true) := by
  have hfirst : sessionsValid (firstMessageStep svc sid).2 = true := by
    rw [firstMessageStep_snd]
    exact all_dictSet _ _ _ _ hm hdef
  refine ⟨?_, ?_, ?_, ?_⟩
  · intro dom
    unfold set_domain sessionsValid
    by_cases hd2 : (lookupAD dom).isNone = true
    · simp only [hd2, if_true]
      exact all_dictSet _ _ _ _ hm hdef
    · have hd3 : (lookupAD dom).isSome = true := by
        cases hx : lookupAD dom
        · rw [hx] at hd2
          exact absurd rfl hd2
        · rfl
      rw [if_neg hd2]
      exact all_dictSet _ _ _ _ hm hd3
  · unfold reset_session sessionsValid
    exact all_dictDel _ _ _ hm
  · intro e
    unfold classify_intent
    cases hg : dictGet svc.session_domains sid with
    | none => exact hfirst
    | some d =>
      by_cases hde : d = ""
      · simp only [if_pos hde]
        exact hfirst
      · simp only [if_neg hde]
        exact hm
  · intro intent hknown
    unfold classify_intent
    cases hg : dictGet svc.session_domains sid with
    | none => exact hfirst
    | some d =>
      by_cases hde : d = ""
      · simp only [if_pos hde]
        exact hfirst
      · simp only [if_neg hde]
        cases hic : intent.is_domain_change
        · simp only [hic, Bool.false_eq_true, if_false]
          exact hm
        · simp only [hic, if_true]
          exact all_dictSet _ _ _ _ hm hknown

/-- Witness for the amended C3 at a concrete service with one recorded
session. -/
theorem c3_sessions_valid_amended_witness :
    sessionsValid (set_domain (set_domain (initService "cora") "s1" "cora") "s1" "warehouse") = true ∧
    sessionsValid (reset_session (set_domain (initService "cora") "s1" "cora") "s1") = true ∧
    sessionsValid (classify_intent (set_domain (initService "cora") "s1" "cora") "msg" "s1" none
        (Except.error "boom")).2 = true ∧
    sessionsValid (classify_intent (set_domain (initService "cora") "s1" "cora") "msg" "s1" none
        (Except.ok { domain := "cart_manager", is_domain_change := true,
                     confMant := 1, confScale := 0,
                     reasoning := "r" })).2 = true := by
  have h := c3_sessions_valid_amended (set_domain (initService "cora") "s1" "cora")
    "msg" "s1" none (by decide) (by decide)
  exact ⟨h.1 "warehouse", h.2.1, h.2.2.1 "boom",
    h.2.2.2 { domain := "cart_manager", is_domain_change := true,
              confMant := 1, confScale := 0, reasoning := "r" } (by decide)⟩

/-- C8: classify_intent leaves the session dict unchanged when the
classifier succeeds without reporting a domain change and when the
classifier raises, in both cases for a session with a recorded
non-empty domain, and in every case it never touches the entry of any
other session id. -/
theorem c8_session_dict_frame (svc : HandoffService) (msg sid : String)
    (hist : Option String) :
    (∀ intent, intent.is_domain_change = false →
      (∃ d, dictGet svc.session_domains sid = some d ∧ d ≠ "") →
      (classify_intent svc msg sid hist (Except.ok intent)).2 = svc) ∧
    (∀ e, (∃ d, dictGet svc.session_domains sid = some d ∧ d ≠ "") →
      (classify_intent svc msg sid hist (Except.error e)).2 = svc) ∧
    (∀ outcome sid2, sid2 ≠ sid →
      dictGet (classify_intent svc msg sid hist outcome).2.session_domains sid2 =
        dictGet svc.session_domains sid2) := by
  have hfirst : ∀ sid2, sid2 ≠ sid →
      dictGet (firstMessageStep svc sid).2.session_domains sid2 =
        dictGet svc.session_domains sid2 := by
    intro sid2 hne2
    rw [firstMessageStep_snd]
    exact lookup_dictSet_ne _ _ _ _ hne2
  refine ⟨?_, ?_, ?_⟩
  · rintro intent hic ⟨d, hg, hne⟩
    unfold classify_intent
    simp only [hg, if_neg hne, hic, Bool.false_eq_true, if_false]
  · rintro e ⟨d, hg, hne⟩
    unfold classify_intent
    simp only [hg, if_neg hne]
  · intro outcome sid2 hne2
    unfold classify_intent
    cases hg : dictGet svc.session_domains sid with
    | none => exact hfirst sid2 hne2
    | some d =>
      by_cases hde : d = ""
      · simp only [if_pos hde]
        exact hfirst sid2 hne2
      · simp only [if_neg hde]
        cases outcome with
        | error e => rfl
        | ok intent =>
          cases hic : intent.is_domain_change
          · simp only [hic, Bool.false_eq_true, if_false]
          · simp only [hic, if_true]
            exact lookup_dictSet_ne _ _ _ _ hne2

/-- Witness for C8 at a concrete service with one recorded session. -/
theorem c8_session_dict_frame_witness :
    (classify_intent (set_domain (initService "cora") "s1" "interior_designer") "msg" "s1" none
        (Except.ok { domain := "interior_designer", is_domain_change := false,
                     confMant := 8, confScale := 1,
                     reasoning := "stay" })).2 =
      set_domain (initService "cora") "s1" "interior_designer" ∧
    (classify_intent (set_domain (initService "cora") "s1" "interior_designer") "msg" "s1" none
        (Except.error "boom")).2 =
      set_domain (initService "cora") "s1" "interior_designer" ∧
    dictGet (classify_intent (set_domain (initService "cora") "s1" "interior_designer")
        "msg" "s2" none (Except.error "boom")).2.session_domains "s1" =
      dictGet (set_domain (initService "cora") "s1" "interior_designer").session_domains "s1" := by
  refine ⟨?_, ?_, ?_⟩
  · exact (c8_session_dict_frame (set_domain (initService "cora") "s1" "interior_designer")
      "msg" "s1" none).1
      { domain := "interior_designer", is_domain_change := false,
        confMant := 8, confScale := 1, reasoning := "stay" }
      rfl ⟨"interior_designer", rfl, by decide⟩
  · exact (c8_session_dict_frame (set_domain (initService "cora") "s1" "interior_designer")
      "msg" "s1" none).2.1 "boom" ⟨"interior_designer", rfl, by decide⟩
  · exact (c8_session_dict_frame (set_domain (initService "cora") "s1" "interior_designer")
      "msg" "s2" none).2.2 (Except.error "boom") "s1" (by decide)

/-- C4 counterexample: on an input parsing to a non-empty list whose
first element is not a mapping, parse_agent_response builds a record
with only six keys, with no cart key, so the claimed fixed seven-field
shape fails on that branch. -/
theorem c4_missing_cart_key :
    (parse_agent_response "[1]").map Prod.fst =
      ["answer", "agent", "products", "discount_percentage", "image_url", "additional_data"] ∧
    (List.lookup "cart" (parse_agent_response "[1]")).isNone = true := ⟨rfl, rfl⟩

/-- C4 amended: for every input string, parse_agent_response returns a
record with exactly the seven fields answer, agent, products,
discount_percentage, image_url, additional_data and cart, except on the
branch where the parsed value is a non-empty list whose first element
is not a mapping, which returns the same fields without cart. -/
theorem c4_fixed_shape_amended (s : String) :
    (parse_agent_response s).map Prod.fst =
      (if nonMappingListHead (loads (extractCandidate s)) then
        ["answer", "agent", "products", "discount_percentage", "image_url", "additional_data"]
      else
        ["answer", "agent", "products", "discount_percentage", "image_url",
         "additional_data", "cart"]) := by
  unfold parse_agent_response
  dsimp only
  cases hl : loads (extractCandidate s) with
  | none => simp [failRecord, nonMappingListHead]
  | some v =>
    cases v with
    | null => simp [scalarRecord, nonMappingListHead]
    | bool b => simp [scalarRecord, nonMappingListHead]
    | num i m e => simp [scalarRecord, nonMappingListHead]
    | str t => simp [scalarRecord, nonMappingListHead]
    | arr xs =>
      cases xs with
      | nil => simp [scalarRecord, nonMappingListHead]
      | cons f rest =>
        cases f <;> simp [listDictRecord, listOtherRecord, isObjJ, nonMappingListHead]
    | obj kvs => simp [dictRecord, nonMappingListHead]

/-- C5 counterexample: an empty products list is falsy, so the mapping
branch keeps it as a list instead of re-serializing it to JSON text. -/
theorem c5_empty_products_kept_as_list :
    List.lookup "products" (parse_agent_response "[\x7b\"answer\":\"x\",\"products\":[]\x7d]") =
      some (JValue.arr []) ∧
    isStrJ (JValue.arr []) = false := ⟨rfl, rfl⟩

/-- C5 amended: when the extracted JSON parses to a non-empty list
whose first element is a mapping, parse_agent_response builds its
record from that first element alone, and a truthy non-string products
value of that element is re-serialized with json.dumps; a falsy one,
such as an empty list or dict, is kept as it is. -/
theorem c5_products_serialization_amended (s : String) (kvs : List (String × JValue))
    (rest : List JValue)
    (h : loads (extractCandidate s) = some (.arr (.obj kvs :: rest))) :
    parse_agent_response s = listDictRecord kvs ∧
    (pyTruthy (objGetD kvs "products" (.str "")) = true →
      isStrJ (objGetD kvs "products" (.str "")) = false →
      List.lookup "products" (listDictRecord kvs) =
        some (.str (dumpsJ (objGetD kvs "products" (.str ""))))) := by
  constructor
  · unfold parse_agent_response
    dsimp only
    rw [h]
  · intro ht hs
    have hcond : (pyTruthy (objGetD kvs "products" (JValue.str "")) &&
        !isStrJ (objGetD kvs "products" (JValue.str ""))) = true := by
      rw [ht, hs]
      rfl
    unfold listDictRecord
    simp only [hcond, if_true]
    rfl

/-- Witness for the amended C5 at the concrete input of the spec. -/
theorem c5_products_serialization_amended_witness :
    List.lookup "products"
        (parse_agent_response "[\x7b\"answer\":\"x\",\"products\":[\x7b\"name\":\"A\"\x7d]\x7d]") =
      some (.str (dumpsJ (JValue.arr [JValue.obj [("name", JValue.str "A")]]))) ∧
    answerText
        (parse_agent_response "[\x7b\"answer\":\"x\",\"products\":[\x7b\"name\":\"A\"\x7d]\x7d]") =
      "x" := by
  have h := c5_products_serialization_amended
    "[\x7b\"answer\":\"x\",\"products\":[\x7b\"name\":\"A\"\x7d]\x7d]"
    [("answer", JValue.str "x"), ("products", JValue.arr [JValue.obj [("name", JValue.str "A")]])]
    [] rfl
  constructor
  · rw [h.1]
    exact h.2 rfl rfl
  · rw [h.1]
    rfl

/-- C6 counterexample: on an input whose bracket-delimited span fails
to parse, the answer is the extracted span, not the raw input text. -/
theorem c6_answer_is_extracted_span :
    answerText (parse_agent_response "xx \x7boops\x7d yy") = "\x7boops\x7d" ∧
    "\x7boops\x7d" ≠ "xx \x7boops\x7d yy" := ⟨rfl, by decide⟩

/-- C6 amended: whenever json parsing of the extracted candidate fails,
parse_agent_response returns, without raising, the failure record whose
answer is that candidate text, the span extracted by the regexes when
one matches and the raw input otherwise, with all other fields empty. -/
theorem c6_parse_failure_amended (s : String)
    (h : loads (extractCandidate s) = none) :
    parse_agent_response s = failRecord (extractCandidate s) := by
  unfold parse_agent_response
  dsimp only
  rw [h]

/-- Witness for the amended C6 at the concrete no-JSON input of the
spec, where the candidate is the raw input itself. -/
theorem c6_parse_failure_amended_witness :
    parse_agent_response "not json at all" = failRecord "not json at all" :=
  c6_parse_failure_amended "not json at all" rfl

/-- C7: when the extracted JSON parses to a dict whose answer field is
a string that starts with an opening and ends with a closing square
bracket, parse_agent_response unwraps it exactly one level: if the
nested text parses to a non-empty list whose first element is a mapping
containing an answer key, the returned answer is that inner answer
value; in every other case, including nested parse failure, a non-dict
first element, a missing inner answer key, an empty list or a non-list
nested value, the answer text is kept unchanged. -/
theorem c7_nested_answer_unwrap (s : String) (kvs : List (String × JValue)) (a : String)
    (h : loads (extractCandidate s) = some (.obj kvs))
    (ha : objGetD kvs "answer" (.str "") = .str a)
    (hb : (startsWithLB a && endsWithRB a) = true) :
    (∀ kvs2 rest, loads a = some (.arr (.obj kvs2 :: rest)) →
      objHasKey kvs2 "answer" = true →
      List.lookup "answer" (parse_agent_response s) = some (objGetD kvs2 "answer" .null)) ∧
    (∀ kvs2 rest, loads a = some (.arr (.obj kvs2 :: rest)) →
      objHasKey kvs2 "answer" = false →
      List.lookup "answer" (parse_agent_response s) = some (.str a)) ∧
    (∀ v rest, loads a = some (.arr (v :: rest)) → isObjJ v = false →
      List.lookup "answer" (parse_agent_response s) = some (.str a)) ∧
    (∀ v, loads a = some v → (∀ xs, v ≠ .arr xs) →
      List.lookup "answer" (parse_agent_response s) = some (.str a)) ∧
    (loads a = some (.arr []) →
      List.lookup "answer" (parse_agent_response s) = some (.str a)) ∧
    (loads a = none →
      List.lookup "answer" (parse_agent_response s) = some (.str a)) := by
  have hrec : parse_agent_response s = dictRecord kvs := by
    unfold parse_agent_response
    dsimp only
    rw [h]
  have hlook : ∀ w : JValue,
      dictBranchAnswer (objGetD kvs "answer" (.str "")) = w →
      List.lookup "answer" (parse_agent_response s) = some w := by
    intro w hw
    rw [hrec]
    unfold dictRecord
    rw [hw]
    rfl
  have hpre : dictBranchAnswer (objGetD kvs "answer" (.str "")) =
      (match loads a with
       | some (.arr (first :: _)) =>
         match first with
         | .obj kvs2 =>
           if objHasKey kvs2 "answer" then objGetD kvs2 "answer" .null else .str a
         | _ => .str a
       | some _ => .str a
       | none => .str a) := by
    rw [ha]
    unfold dictBranchAnswer
    dsimp only
    simp only [hb]
    rfl
  refine ⟨?_, ?_, ?_, ?_, ?_, ?_⟩
  · intro kvs2 rest hl hk
    refine hlook _ ?_
    rw [hpre, hl]
    simp only [hk, if_true]
  · intro kvs2 rest hl hk
    refine hlook _ ?_
    rw [hpre, hl]
    simp only [hk, Bool.false_eq_true, if_false]
  · intro v rest hl hv
    refine hlook _ ?_
    rw [hpre, hl]
    cases v with
    | obj kvs2 => simp [isObjJ] at hv
    | null => rfl
    | bool b => rfl
    | num i m e => rfl
    | str t => rfl
    | arr xs => rfl
  · intro v hl hv
    refine hlook _ ?_
    rw [hpre, hl]
    cases v with
    | arr xs => exact absurd rfl (hv xs)
    | null => rfl
    | bool b => rfl
    | num i m e => rfl
    | str t => rfl
    | obj kvs2 => rfl
  · intro hl
    refine hlook _ ?_
    rw [hpre, hl]
  · intro hl
    refine hlook _ ?_
    rw [hpre, hl]

/-- Witness for C7 at a concrete nested-answer input. -/
theorem c7_nested_answer_unwrap_witness :
    List.lookup "answer"
        (parse_agent_response "\x7b\"answer\": \"[\x7b\\\"answer\\\": \\\"inner\\\"\x7d]\"\x7d") =
      some (JValue.str "inner") :=
  (c7_nested_answer_unwrap "\x7b\"answer\": \"[\x7b\\\"answer\\\": \\\"inner\\\"\x7d]\"\x7d"
    [("answer", JValue.str "[\x7b\"answer\": \"inner\"\x7d]")]
    "[\x7b\"answer\": \"inner\"\x7d]" rfl rfl rfl).1
    [("answer", JValue.str "inner")] [] rfl rfl

/-- C10: a falsy discount_percentage value, such as the number zero or
the empty string, yields an empty discount_percentage text in the built
record, and only a truthy value is stringified, both in the dict branch
and in the list-of-mappings branch of parse_agent_response. -/
theorem c10_falsy_discount_empty (s : String) :
    (∀ kvs, loads (extractCandidate s) = some (.obj kvs) →
      (pyTruthy (objGetD kvs "discount_percentage" .null) = false →
        List.lookup "discount_percentage" (parse_agent_response s) = some (.str "")) ∧
      (pyTruthy (objGetD kvs "discount_percentage" .null) = true →
        List.lookup "discount_percentage" (parse_agent_response s) =
          some (.str (pyStr (objGetD kvs "discount_percentage" (.str "")))))) ∧
    (∀ kvs rest, loads (extractCandidate s) = some (.arr (.obj kvs :: rest)) →
      (pyTruthy (objGetD kvs "discount_percentage" (.str "")) = false →
        List.lookup "discount_percentage" (parse_agent_response s) = some (.str "")) ∧
      (pyTruthy (objGetD kvs "discount_percentage" (.str "")) = true →
        List.lookup "discount_percentage" (parse_agent_response s) =
          some (.str (pyStr (objGetD kvs "discount_percentage" (.str "")))))) := by
  constructor
  · intro kvs h
    have hrec : parse_agent_response s = dictRecord kvs := by
      unfold parse_agent_response
      dsimp only
      rw [h]
    have hlook : List.lookup "discount_percentage" (dictRecord kvs) =
        some (if pyTruthy (objGetD kvs "discount_percentage" JValue.null) then
          JValue.str (pyStr (objGetD kvs "discount_percentage" (JValue.str "")))
        else JValue.str "") := rfl
    constructor
    · intro hf
      rw [hrec, hlook]
      simp only [hf, Bool.false_eq_true, if_false]
    · intro ht
      rw [hrec, hlook]
      simp only [ht, if_true]
  · intro kvs rest h
    have hrec : parse_agent_response s = listDictRecord kvs := by
      unfold parse_agent_response
      dsimp only
      rw [h]
    have hlook : List.lookup "discount_percentage" (listDictRecord kvs) =
        some (if pyTruthy (objGetD kvs "discount_percentage" (JValue.str "")) then
          JValue.str (pyStr (objGetD kvs "discount_percentage" (JValue.str "")))
        else JValue.str "") := rfl
    constructor
    · intro hf
      rw [hrec, hlook]
      simp only [hf, Bool.false_eq_true, if_false]
    · intro ht
      rw [hrec, hlook]
      simp only [ht, if_true]

/-- Witness for C10: a zero discount in the dict branch, a float zero
discount in the list branch, and a truthy discount in the dict branch. -/
theorem c10_falsy_discount_empty_witness :
    List.lookup "discount_percentage"
        (parse_agent_response "\x7b\"discount_percentage\": 0\x7d") = some (JValue.str "") ∧
    List.lookup "discount_percentage"
        (parse_agent_response "[\x7b\"discount_percentage\": 0.0\x7d]") = some (JValue.str "") ∧
    List.lookup "discount_percentage"
        (parse_agent_response "\x7b\"discount_percentage\": 10\x7d") =
      some (JValue.str (pyStr (JValue.num true 10 0))) := by
  refine ⟨?_, ?_, ?_⟩
  · exact ((c10_falsy_discount_empty "\x7b\"discount_percentage\": 0\x7d").1
      [("discount_percentage", JValue.num true 0 0)] rfl).1 rfl
  · exact ((c10_falsy_discount_empty "[\x7b\"discount_percentage\": 0.0\x7d]").2
      [("discount_percentage", JValue.num false 0 (-1))] [] rfl).1 rfl
  · exact ((c10_falsy_discount_empty "\x7b\"discount_percentage\": 10\x7d").1
      [("discount_percentage", JValue.num true 10 0)] rfl).2 rfl
